import Mathlib

/- Shallow embedding of src/laser_control.py (Fake-Laser-Serial).

   Wire byte strings are modelled as Lean strings over the ASCII alphabet the
   protocol uses.  The serial transport is modelled as a function from the
   command text handed to Laser._send_command to the device's optional reply
   (the reply includes the trailing carriage-return terminator); a reply of
   none stands for a read that timed out and, per the docstring of
   _send_command, returned None. -/

/-- Python exceptions that the embedded operations can raise. -/
inductive PyError where
  | connectionError (msg : String)
  | laserCommandError (msg : String)
  | valueError (msg : String)
  | typeError
  | indexError
  | zeroDivisionError
deriving DecidableEq

/-- LaserStatusResponse (src/laser_control.py lines 9-24): one Bool per
defined status bit of the decoded status word. -/
structure LaserStatusResponse where
  laser_enabled : Bool
  laser_active : Bool
  diode_external_trigger : Bool
  external_interlock : Bool
  resonator_over_temp : Bool
  electrical_over_temp : Bool
  power_failure : Bool
  ready_to_enable : Bool
  ready_to_fire : Bool
  low_power_mode : Bool
  high_power_mode : Bool
deriving DecidableEq

/-- LaserStatusResponse.__init__ (lines 13-24): decodes the integer status
word, field f is bool(i AND mask) at the fixed bit masks 1, 2, 8, 64, 128,
256, 512, 1024, 2048, 4096, 8192. -/
def laserStatusDecode (i : Nat) : LaserStatusResponse where
  laser_enabled := i &&& 1 != 0
  laser_active := i &&& 2 != 0
  diode_external_trigger := i &&& 8 != 0
  external_interlock := i &&& 64 != 0
  resonator_over_temp := i &&& 128 != 0
  electrical_over_temp := i &&& 256 != 0
  power_failure := i &&& 512 != 0
  ready_to_enable := i &&& 1024 != 0
  ready_to_fire := i &&& 2048 != 0
  low_power_mode := i &&& 4096 != 0
  high_power_mode := i &&& 8192 != 0

/-- LaserStatusResponse.__str__ (lines 26-52): re-encodes the status word by
summing the bit values of all true fields. -/
def laserStatusEncode (s : LaserStatusResponse) : Nat :=
  (if s.laser_enabled then 1 else 0) +
  (if s.laser_active then 2 else 0) +
  (if s.diode_external_trigger then 8 else 0) +
  (if s.external_interlock then 64 else 0) +
  (if s.resonator_over_temp then 128 else 0) +
  (if s.electrical_over_temp then 256 else 0) +
  (if s.power_failure then 512 else 0) +
  (if s.ready_to_enable then 1024 else 0) +
  (if s.ready_to_fire then 2048 else 0) +
  (if s.low_power_mode then 4096 else 0) +
  (if s.high_power_mode then 8192 else 0)

/-- The mutable attributes of class Laser set in __init__ (lines 65-82) that
the control logic reads or writes.  The serial handle itself is external; the
fields _kicker_control, _startup and connected keep their roles.  Integer
valued attributes are Int, real valued ones Rat (the source values here are
exact in binary floating point as well). -/
structure LaserState where
  pulseMode : Int
  pulsePeriod : Rat
  repRate : Int
  burstCount : Int
  diodeCurrent : Rat
  energyMode : Int
  pulseWidth : Rat
  diodeTrigger : Int
  burstDuration : Rat
  kicker_control : Bool
  startup : Bool
  connected : Bool
deriving DecidableEq

/-- Laser.__init__ (lines 65-82) with its parameters: burstDuration is set to
burstCount / repRate (Python float division; no caller in this development
passes repRate = 0, where Python would raise ZeroDivisionError while Rat
division yields 0). -/
def laserInit (pulseMode : Int) (pulsePeriod : Rat) (repRate : Int) (burstCount : Int)
    (diodeCurrent : Rat) (energyMode : Int) (pulseWidth : Rat) (diodeTrigger : Int) :
    LaserState where
  pulseMode := pulseMode
  pulsePeriod := pulsePeriod
  repRate := repRate
  burstCount := burstCount
  diodeCurrent := diodeCurrent
  energyMode := energyMode
  pulseWidth := pulseWidth
  diodeTrigger := diodeTrigger
  burstDuration := (burstCount : Rat) / (repRate : Rat)
  kicker_control := false
  startup := true
  connected := false

/-- A Laser() constructed with the default arguments of __init__ (line 65). -/
def laserDefault : LaserState := laserInit 0 0 1 10 (1/10) 0 10 0

/-- The transport: maps the command text given to _send_command to the raw
reply (terminator included), none standing for a read timeout. -/
abbrev Device := String → Option String

/-- self._device_address (line 81), fixed per session. -/
def device_address : String := "LA"

/-- The complete outbound frame built by _send_command (line 144): prefix,
address, delimiter, command, terminator. -/
def frame (cmd : String) : String := ";" ++ device_address ++ ":" ++ cmd ++ "\r"

/-- The ConnectionError message of _send_command (line 141). -/
def connectionErrorMsg : String :=
  "Not connected to a serial port. Please call connect() before issuing any commands!"

/-- Laser._send_command (lines 123-151): empty commands return None without
touching the port; commands while not connected raise ConnectionError before
any write; otherwise exactly one frame is written and the reply (or timeout)
is returned.  The second component is the list of frames written to the
transport. -/
def send_command (s : LaserState) (dev : Device) (cmd : String) :
    Except PyError (Option String) × List String :=
  if cmd = "" then (Except.ok none, [])
  else if s.connected = false then (Except.error (PyError.connectionError connectionErrorMsg), [])
  else (Except.ok (dev cmd), [frame cmd])

/-- Python slicing code[:-1] on a byte string (drop the final byte). -/
def pyDropLast (s : String) : String := String.mk s.data.dropLast

/-- Python repr of a bytes object restricted to the protocol alphabet used
here: printable ASCII passes through, the terminator prints as backslash-r
(likewise backslash-n, backslash-t, and a doubled backslash). -/
def pyBytesRepr (s : String) : String :=
  "b\x27" ++ String.join (s.data.map fun c =>
    if c = '\r' then "\\r"
    else if c = '\n' then "\\n"
    else if c = '\t' then "\\t"
    else if c = '\\' then "\\\\"
    else String.mk [c]) ++ "\x27"

/-- Python str() applied to the bytes-or-None response objects that reach
Laser.get_error_code_description from its callers. -/
def pyStrOfResponse : Option String → String
  | none => "None"
  | some c => pyBytesRepr c

/-- Laser.get_error_code_description (lines 530-549) as called with the
bytes-or-None response of _send_command: the eight comparisons are against
the two-byte literals b-quote-?1 .. b-quote-?8 with no terminator; anything
else yields the fallback text carrying str(code). -/
def get_error_code_description (code : Option String) : String :=
  if code = some "?1" then "Command not recognized."
  else if code = some "?2" then "Missing command keyword."
  else if code = some "?3" then "Invalid command keyword."
  else if code = some "?4" then "Missing Parameter"
  else if code = some "?5" then "Invalid Parameter"
  else if code = some "?6" then "Query only. Command needs a question mark."
  else if code = some "?7" then "Invalid query. Command does not have a query function."
  else if code = some "?8" then "Command unavailable in current system state."
  else "Error description not found, response code given: " ++ pyStrOfResponse code

/-- Laser.get_error_code_description as called from Laser.get_status
(line 247), where the argument is a str, not bytes: in Python a str never
equals a bytes literal, so every branch comparison is False and the fallback
is returned with str(code) = code itself. -/
def get_error_code_description_ofStr (code : String) : String :=
  "Error description not found, response code given: " ++ code

/-- Laser.arm (lines 395-400): sends EN 1, returns True on the exact
acknowledgement, otherwise raises LaserCommandError with the taxonomy
description of the raw reply. -/
def arm (s : LaserState) (dev : Device) : Except PyError Bool × List String :=
  match send_command s dev "EN 1" with
  | (Except.error e, tr) => (Except.error e, tr)
  | (Except.ok r, tr) =>
    if r = some "OK\r" then (Except.ok true, tr)
    else (Except.error (PyError.laserCommandError (get_error_code_description r)), tr)

/-- Laser.disarm (lines 402-408): same shape as arm with command EN 0. -/
def disarm (s : LaserState) (dev : Device) : Except PyError Bool × List String :=
  match send_command s dev "EN 0" with
  | (Except.error e, tr) => (Except.error e, tr)
  | (Except.ok r, tr) =>
    if r = some "OK\r" then (Except.ok true, tr)
    else (Except.error (PyError.laserCommandError (get_error_code_description r)), tr)

/-- Laser.emergency_stop (lines 388-393): same shape with command FL 0. -/
def emergency_stop (s : LaserState) (dev : Device) : Except PyError Bool × List String :=
  match send_command s dev "FL 0" with
  | (Except.error e, tr) => (Except.error e, tr)
  | (Except.ok r, tr) =>
    if r = some "OK\r" then (Except.ok true, tr)
    else (Except.error (PyError.laserCommandError (get_error_code_description r)), tr)

/-- Laser.check_armed, processing of the EN? reply (lines 259-264): a None
reply makes response[:-1] raise TypeError; a reply whose stripped form is the
single question mark raises LaserCommandError; a two-byte reply answers
whether its first byte is the digit one; any other length falls off the end
of the function and returns None. -/
def check_armed_payload : Option String → Except PyError (Option Bool)
  | none => Except.error PyError.typeError
  | some c =>
    if pyDropLast c = "?" then
      Except.error (PyError.laserCommandError (get_error_code_description (some c)))
    else if c.data.length = 2 then Except.ok (some (pyDropLast c == "1"))
    else Except.ok none

/-- Laser.check_armed (lines 251-264). -/
def check_armed (s : LaserState) (dev : Device) :
    Except PyError (Option Bool) × List String :=
  match send_command s dev "EN?" with
  | (Except.error e, tr) => (Except.error e, tr)
  | (Except.ok r, tr) => (check_armed_payload r, tr)

/-- Python int() on the unsigned decimal payloads the device produces
(src line 13 parses the status response this way; Python int() additionally
strips whitespace and accepts a sign, forms no status reply uses). -/
def pyParseNat (s : String) : Option Nat :=
  if s.data ≠ [] ∧ s.data.all (fun c => c.isDigit) then
    some (s.data.foldl (fun acc c => acc * 10 + (c.toNat - 48)) 0)
  else none

/-- Laser.get_status, processing of the SS? reply (lines 243-249): a None
reply makes response[:-1] raise TypeError; an empty stripped reply makes
response[0] raise IndexError; a stripped reply starting with the question
mark raises LaserCommandError (with the str-typed taxonomy call of line 247);
otherwise the payload is parsed as an integer (int() raises ValueError on a
non-numeric payload) and decoded into a LaserStatusResponse. -/
def get_status_payload : Option String → Except PyError LaserStatusResponse
  | none => Except.error PyError.typeError
  | some c =>
    match (pyDropLast c).data with
    | [] => Except.error PyError.indexError
    | ch :: _ =>
      if ch = '?' then
        Except.error (PyError.laserCommandError (get_error_code_description_ofStr (pyDropLast c)))
      else
        match pyParseNat (pyDropLast c) with
        | some n => Except.ok (laserStatusDecode n)
        | none => Except.error (PyError.valueError "invalid literal for int with base 10")

/-- Laser.get_status (lines 235-249). -/
def get_status (s : LaserState) (dev : Device) :
    Except PyError LaserStatusResponse × List String :=
  match send_command s dev "SS?" with
  | (Except.error e, tr) => (Except.error e, tr)
  | (Except.ok r, tr) => (get_status_payload r, tr)

/-- The comparison status != some-string of src line 214, where status is the
LaserStatusResponse object returned by get_status: the class defines neither
an __eq__ nor an __ne__ method, so Python falls back to default object
identity, and an instance of the class is never the same object as a str
literal — the expression is True for every status and every string. -/
def pyNeStatusStr (status : LaserStatusResponse) (t : String) : Bool :=
  let _ := status
  let _ := t
  true

/-- Python time.sleep: raises ValueError on a negative duration, otherwise a
pure delay with no observable effect in this embedding. -/
def pySleep (d : Rat) : Except PyError Unit :=
  if d < 0 then Except.error (PyError.valueError "sleep length must be non-negative")
  else Except.ok ()

/-- The wait of fire_laser lines 220-231: full pulse period for pulse mode 0,
one over the repetition rate for mode 1 (ZeroDivisionError when repRate = 0),
and the stored burst duration for mode 2, bracketed by setting and clearing
_kicker_control when that duration is at least two seconds; any other pulse
mode waits not at all. -/
def fireSleep (s : LaserState) : Except PyError Unit × LaserState :=
  if s.pulseMode = 0 then (pySleep s.pulsePeriod, s)
  else if s.pulseMode = 1 then
    if s.repRate = 0 then (Except.error PyError.zeroDivisionError, s)
    else (pySleep (1 / (s.repRate : Rat)), s)
  else if s.pulseMode = 2 then
    if s.burstDuration ≥ 2 then
      match pySleep s.burstDuration with
      | Except.error e => (Except.error e, { s with kicker_control := true })
      | Except.ok _ => (Except.ok (), { s with kicker_control := false })
    else (pySleep s.burstDuration, s)
  else (Except.ok (), s)

/-- Laser.fire_laser (lines 199-233): send FL 1 and require the exact
acknowledgement; query status; require energy mode different from low; require
check_armed to have returned True (a None or False return raises); then the
comparison of line 214 (see pyNeStatusStr) decides between the abort path
(send FL 0, raise Laser Failed to Fire) and the wait-then-FL 0 path.  Returns
the outcome, the final state and the list of frames written. -/
def fire_laser (s : LaserState) (dev : Device) :
    Except PyError Unit × LaserState × List String :=
  match send_command s dev "FL 1" with
  | (Except.error e, t1) => (Except.error e, s, t1)
  | (Except.ok fire_response, t1) =>
    if fire_response ≠ some "OK\r" then
      (Except.error (PyError.laserCommandError (get_error_code_description fire_response)), s, t1)
    else
      match get_status s dev with
      | (Except.error e, t2) => (Except.error e, s, t1 ++ t2)
      | (Except.ok status, t2) =>
        if s.energyMode = 1 then
          (Except.error (PyError.laserCommandError "Laser is in Low Energy Mode"), s, t1 ++ t2)
        else
          match check_armed s dev with
          | (Except.error e, t3) => (Except.error e, s, t1 ++ t2 ++ t3)
          | (Except.ok armed, t3) =>
            if armed ≠ some true then
              (Except.error (PyError.laserCommandError "Laser not armed"), s, t1 ++ t2 ++ t3)
            else
              if pyNeStatusStr status "3075" && pyNeStatusStr status "11267" then
                match send_command s dev "FL 0" with
                | (Except.error e, t4) => (Except.error e, s, t1 ++ t2 ++ t3 ++ t4)
                | (Except.ok _, t4) =>
                  (Except.error (PyError.laserCommandError "Laser Failed to Fire"), s,
                    t1 ++ t2 ++ t3 ++ t4)
              else
                match fireSleep s with
                | (Except.error e, s2) => (Except.error e, s2, t1 ++ t2 ++ t3)
                | (Except.ok _, s2) =>
                  match send_command s2 dev "FL 0" with
                  | (Except.error e, t4) => (Except.error e, s2, t1 ++ t2 ++ t3 ++ t4)
                  | (Except.ok _, t4) => (Except.ok (), s2, t1 ++ t2 ++ t3 ++ t4)

/-- One invocation of one of the eight parameter setters of class Laser
(lines 410-504), carrying its argument. -/
inductive SetterCall where
  | pulseMode (mode : Int)
  | pulsePeriod (period : Rat)
  | diodeTrigger (trigger : Int)
  | pulseWidth (width : Rat)
  | burstCount (count : Int)
  | repRate (rate : Int)
  | diodeCurrent (current : Rat)
  | energyMode (mode : Int)
deriving DecidableEq

/-- The argument validation each setter performs before sending anything
(the ValueError checks of lines 412, 435, 447, 460, 471, 482, 494-498;
set_pulse_period performs no validation). -/
def setterValid : SetterCall → Prop
  | SetterCall.pulseMode mode => mode = 0 ∨ mode = 1 ∨ mode = 2
  | SetterCall.pulsePeriod _ => True
  | SetterCall.diodeTrigger trigger => trigger = 0 ∨ trigger = 1
  | SetterCall.pulseWidth width => 0 < width
  | SetterCall.burstCount count => 0 < count
  | SetterCall.repRate rate => 1 ≤ rate ∧ rate ≤ 5
  | SetterCall.diodeCurrent current => 0 < current
  | SetterCall.energyMode mode => mode = 0 ∨ mode = 1 ∨ mode = 2

instance : DecidablePred setterValid := by
  intro c
  cases c <;> (simp only [setterValid]; infer_instance)

/-- The eight parameter setters set_pulse_mode, set_pulse_period,
set_diode_trigger, set_pulse_width, set_burst_count, set_rep_rate,
set_diode_current and set_energy_mode (lines 410-504).  Each validates its
argument (raising ValueError), then performs one _send_command exchange whose
reply is the resp argument (the ConnectionError check of _send_command is
inlined; every command text sent is non-empty), commits the new value to the
configuration only on the exact acknowledgement, and otherwise raises
LaserCommandError with the taxonomy description of the raw reply.
set_diode_current additionally forces energy mode to 0 on success (line 488);
set_burst_count and set_rep_rate update no other field — in particular
neither recomputes burstDuration. -/
def runSetter (s : LaserState) (resp : Option String) :
    SetterCall → Except PyError Bool × LaserState
  | SetterCall.pulseMode mode =>
    if ¬(mode = 0 ∨ mode = 1 ∨ mode = 2) then
      (Except.error (PyError.valueError "Invalid value for pulse mode! 0, 1, or 2 are accepted values."), s)
    else if s.connected = false then (Except.error (PyError.connectionError connectionErrorMsg), s)
    else if resp = some "OK\r" then (Except.ok true, { s with pulseMode := mode })
    else (Except.error (PyError.laserCommandError (get_error_code_description resp)), s)
  | SetterCall.pulsePeriod period =>
    if s.connected = false then (Except.error (PyError.connectionError connectionErrorMsg), s)
    else if resp = some "OK\r" then (Except.ok true, { s with pulsePeriod := period })
    else (Except.error (PyError.laserCommandError (get_error_code_description resp)), s)
  | SetterCall.diodeTrigger trigger =>
    if ¬(trigger = 0 ∨ trigger = 1) then
      (Except.error (PyError.valueError "Invalid value for trigger mode! 0 or 1 are accepted values."), s)
    else if s.connected = false then (Except.error (PyError.connectionError connectionErrorMsg), s)
    else if resp = some "OK\r" then (Except.ok true, { s with diodeTrigger := trigger })
    else (Except.error (PyError.laserCommandError (get_error_code_description resp)), s)
  | SetterCall.pulseWidth width =>
    if ¬(0 < width) then
      (Except.error (PyError.valueError "Pulse width must be a positive, non-zero number value (no strings)!"), s)
    else if s.connected = false then (Except.error (PyError.connectionError connectionErrorMsg), s)
    else if resp = some "OK\r" then (Except.ok true, { s with pulseWidth := width })
    else (Except.error (PyError.laserCommandError (get_error_code_description resp)), s)
  | SetterCall.burstCount count =>
    if ¬(0 < count) then
      (Except.error (PyError.valueError "Burst count must be a positive, non-zero integer!"), s)
    else if s.connected = false then (Except.error (PyError.connectionError connectionErrorMsg), s)
    else if resp = some "OK\r" then (Except.ok true, { s with burstCount := count })
    else (Except.error (PyError.laserCommandError (get_error_code_description resp)), s)
  | SetterCall.repRate rate =>
    if ¬(1 ≤ rate ∧ rate ≤ 5) then
      (Except.error (PyError.valueError "Laser repetition rate must be a positive integer from 1 to 5!"), s)
    else if s.connected = false then (Except.error (PyError.connectionError connectionErrorMsg), s)
    else if resp = some "OK\r" then (Except.ok true, { s with repRate := rate })
    else (Except.error (PyError.laserCommandError (get_error_code_description resp)), s)
  | SetterCall.diodeCurrent current =>
    if ¬(0 < current) then
      (Except.error (PyError.valueError "Diode current must be a positive, non-zero number!"), s)
    else if s.connected = false then (Except.error (PyError.connectionError connectionErrorMsg), s)
    else if resp = some "OK\r" then
      (Except.ok true, { s with diodeCurrent := current, energyMode := 0 })
    else (Except.error (PyError.laserCommandError (get_error_code_description resp)), s)
  | SetterCall.energyMode mode =>
    if ¬(mode = 0 ∨ mode = 1 ∨ mode = 2) then
      (Except.error (PyError.valueError "Valid values for energy mode are 0, 1 and 2!"), s)
    else if s.connected = false then (Except.error (PyError.connectionError connectionErrorMsg), s)
    else if resp = some "OK\r" then (Except.ok true, { s with energyMode := mode })
    else (Except.error (PyError.laserCommandError (get_error_code_description resp)), s)

/-- Laser.update_settings (lines 515-528): the seven configuration commands
in their fixed order.  Each pair (kw, v) stands for the frame built from the
command text kw ++ blank ++ str(v); the numeric payload, which is what the
claims are about, is kept as an exact value rather than its decimal
rendering.  Line 525 builds the DT command from self.pulseMode. -/
def updateSettingsCmds (s : LaserState) : List (String × Rat) :=
  [("RR", (s.repRate : Rat)),
   ("BC", (s.burstCount : Rat)),
   ("DC", s.diodeCurrent),
   ("EM", (s.energyMode : Rat)),
   ("PM", (s.pulseMode : Rat)),
   ("DW", s.pulseWidth),
   ("DT", (s.pulseMode : Rat))]

/-- The body of Laser._kicker (lines 116-121) run with fuel: the loop is
while True with no break, so no amount of fuel makes it return. -/
def kicker_run : Nat → Option Unit
  | 0 => none
  | Nat.succ n => kicker_run n

/-- Laser.connect (lines 153-197).  Port availability is the external
collaborator serial.tools.list_ports and is abstracted as a Bool; baud and
timeout are ints whose Python truthiness check rejects 0; parity is None or a
string as on lines 181-192.  On line 194 the source writes
Thread(target=self._kicker()) — the call parentheses run _kicker immediately
on the caller's thread, so on the first successful connect (startup still
true) the function enters the infinite kicker loop: with any finite fuel the
result is none (no return).  The result none models that divergence; startup
would be cleared and the thread object started only if _kicker returned. -/
def connect (s : LaserState) (portAvailable : Bool) (baud : Int) (timeout : Int)
    (parity : Option String) (fuel : Nat) : Option (Except PyError LaserState) :=
  if portAvailable = false then
    some (Except.error (PyError.valueError "Error: port is not available"))
  else if baud = 0 then
    some (Except.error (PyError.valueError "Error: baud_rate parameter must be an integer"))
  else if timeout = 0 then
    some (Except.error (PyError.valueError "Error: timeout parameter must be an integer"))
  else if ¬(parity = none ∨ parity = some "" ∨ parity = some "none" ∨ parity = some "even" ∨
      parity = some "odd" ∨ parity = some "mark" ∨ parity = some "space") then
    some (Except.error (PyError.valueError "Error: parity must be None, none, even, odd, mark, space"))
  else if s.startup then
    match kicker_run fuel with
    | none => none
    | some _ => some (Except.ok { s with startup := false })
  else some (Except.ok s)

instance {e a : Type} [DecidableEq e] [DecidableEq a] : DecidableEq (Except e a) := fun x y =>
  match x, y with
  | Except.error u, Except.error v =>
    if h : u = v then isTrue (by rw [h]) else isFalse (by intro hh; cases hh; exact h rfl)
  | Except.ok u, Except.ok v =>
    if h : u = v then isTrue (by rw [h]) else isFalse (by intro hh; cases hh; exact h rfl)
  | Except.error _, Except.ok _ => isFalse (by intro hh; cases hh)
  | Except.ok _, Except.error _ => isFalse (by intro hh; cases hh)

instance : DecidablePred setterValid := by
  intro c
  cases c <;> (simp only [setterValid]; infer_instance)

/-- A default-constructed Laser whose connected attribute has been made true,
the state every command-issuing scenario below starts from. -/
def laserConnected : LaserState := { laserDefault with connected := true }

/-- A default-constructed Laser past its first connect (startup cleared). -/
def laserPastStartup : LaserState := { laserDefault with startup := false }

/-- A connected Laser whose pulseMode has been set to 1 while diodeTrigger
keeps its default 0. -/
def laserPulseModeOne : LaserState := { laserConnected with pulseMode := 1 }

/-- A device in nominal firing condition: it acknowledges FL 1 and FL 0,
reports the nominal firing status 3075 and reports itself armed. -/
def devNominalFire : Device := fun c =>
  if c = "FL 1" then some "OK\r"
  else if c = "SS?" then some "3075\r"
  else if c = "EN?" then some "1\r"
  else if c = "FL 0" then some "OK\r"
  else none

/-- A device that acknowledges every command. -/
def devAlwaysOK : Device := fun _ => some "OK\r"

/-- A device that answers EN 1 with the error reply ?5 plus terminator. -/
def devErr5 : Device := fun c => if c = "EN 1" then some "?5\r" else none

theorem kicker_run_none : ∀ n, kicker_run n = none := by
  intro n
  induction n with
  | zero => rfl
  | succ n ih => exact ih

theorem send_command_connected (s : LaserState) (dev : Device) (cmd : String)
    (hc : s.connected = true) (hne : cmd ≠ "") :
    send_command s dev cmd = (Except.ok (dev cmd), [frame cmd]) := by
  simp [send_command, hne, hc]

theorem get_status_connected (s : LaserState) (dev : Device) (hc : s.connected = true) :
    get_status s dev = (get_status_payload (dev "SS?"), [frame "SS?"]) := by
  rw [get_status, send_command_connected s dev "SS?" hc (by decide)]

theorem check_armed_connected (s : LaserState) (dev : Device) (hc : s.connected = true) :
    check_armed s dev = (check_armed_payload (dev "EN?"), [frame "EN?"]) := by
  rw [check_armed, send_command_connected s dev "EN?" hc (by decide)]

/-- Claim C7: for every status word in which only the eleven defined bits may
be set — that is, every value of the LaserStatusResponse structure — decoding
the integer obtained by encoding it yields the same status again. -/
theorem status_decode_encode_roundtrip (s : LaserStatusResponse) :
    laserStatusDecode (laserStatusEncode s) = s := by
  rcases s with ⟨a, b, c, d, e, f, g, h, i, j, k⟩
  revert a b c d e f g h i j k
  decide

/-- Claim C8: any non-empty command issued while the connection state is
disconnected raises ConnectionError and causes no write to the transport. -/
theorem send_command_disconnected_no_write (s : LaserState) (dev : Device) (cmd : String)
    (hne : cmd ≠ "") (hc : s.connected = false) :
    send_command s dev cmd =
      (Except.error (PyError.connectionError connectionErrorMsg), []) := by
  simp [send_command, hne, hc]

/-- Witness for C8 at the concrete command FL 0 on a fresh Laser. -/
theorem send_command_disconnected_no_write_witness :
    send_command laserDefault (fun _ => none) "FL 0" =
      (Except.error (PyError.connectionError connectionErrorMsg), []) :=
  send_command_disconnected_no_write laserDefault (fun _ => none) "FL 0" (by decide) rfl

/-- Claim C1 (code bug): with the device acknowledging FL 1, reporting the
nominal firing status 3075 and reporting itself armed, the re-queried status
decodes to the word whose encoding is exactly 3075 — yet fire_laser still
takes the abort path, sending FL 0 and raising Laser Failed to Fire, because
line 214 compares the status object itself rather than its encoded numeric
form against the two nominal codes and that comparison never succeeds. -/
theorem fire_laser_aborts_on_nominal_status :
    (get_status laserConnected devNominalFire).1 = Except.ok (laserStatusDecode 3075) ∧
    laserStatusEncode (laserStatusDecode 3075) = 3075 ∧
    (fire_laser laserConnected devNominalFire).1 =
      Except.error (PyError.laserCommandError "Laser Failed to Fire") ∧
    ((fire_laser laserConnected devNominalFire).2.2).count (frame "FL 0") = 1 := by
  decide

/-- Claim C2 (code bug): a connect call past startup with an available port
and valid baud, timeout and parity returns successfully yet leaves the state
with connected still false — connect never assigns connected = True — so the
next command-issuing operation raises ConnectionError even against a device
that would acknowledge it. -/
theorem connect_leaves_disconnected :
    connect laserPastStartup true 115200 1 none 0 = some (Except.ok laserPastStartup) ∧
    laserPastStartup.connected = false ∧
    (arm laserPastStartup devAlwaysOK).1 =
      Except.error (PyError.connectionError connectionErrorMsg) :=
  ⟨rfl, rfl, rfl⟩

/-- Claim C3: every execution of fire_laser that reaches the status
verification of line 214 — FL 1 exactly acknowledged, the status query
succeeded, energy mode not low, the armed re-check true — writes the FL 0
frame exactly once, whatever status the device reported.  (In the code as
written every such execution takes the abort path, compare C1, and that path
sends FL 0 once; the nominal-completion branch would also send it once.) -/
theorem fire_laser_sends_FL0_once (s : LaserState) (dev : Device)
    (st : LaserStatusResponse)
    (hc : s.connected = true)
    (h1 : dev "FL 1" = some "OK\r")
    (hs : get_status_payload (dev "SS?") = Except.ok st)
    (he : s.energyMode ≠ 1)
    (ha : check_armed_payload (dev "EN?") = Except.ok (some true)) :
    ((fire_laser s dev).2.2).count (frame "FL 0") = 1 := by
  simp only [fire_laser, send_command_connected s dev "FL 1" hc (by decide), h1,
    get_status_connected s dev hc, hs, check_armed_connected s dev hc, ha,
    send_command_connected s dev "FL 0" hc (by decide), pyNeStatusStr]
  simp [he]
  decide

/-- Witness for C3 on the nominal-firing device. -/
theorem fire_laser_sends_FL0_once_witness :
    ((fire_laser laserConnected devNominalFire).2.2).count (frame "FL 0") = 1 :=
  fire_laser_sends_FL0_once laserConnected devNominalFire (laserStatusDecode 3075)
    rfl (by decide) (by decide) (by decide) (by decide)

/-- Claim C4 (code bug): the taxonomy maps the bare two-byte code ?5 to
Invalid Parameter, but arm hands it the full reply including the terminator,
so on the device error reply ?5-then-terminator the raised error carries the
unknown-error fallback text instead of the mapped description. -/
theorem arm_err5_fallback :
    get_error_code_description (some "?5") = "Invalid Parameter" ∧
    (arm laserConnected devErr5).1 =
      Except.error (PyError.laserCommandError
        "Error description not found, response code given: b\x27?5\\r\x27") := by
  decide

/-- Claim C5 counterexample: a setter receiving the device reply ?5 plus
terminator does not raise the error whose description is the one mapped for
?5 (Invalid Parameter); the description raised is the unknown-code fallback
because the terminator defeats the two-character match. -/
theorem setter_err5_not_mapped :
    get_error_code_description (some "?5") = "Invalid Parameter" ∧
    (runSetter laserConnected (some "?5\r") (SetterCall.repRate 3)).1 ≠
      Except.error (PyError.laserCommandError "Invalid Parameter") := by
  decide

/-- Claim C5 (amended): every parameter setter with a valid argument, on any
device reply other than the exact acknowledgement, raises LaserCommandError
carrying the taxonomy description of the raw terminated reply and leaves
every field of the configuration unchanged; it commits only on the exact
acknowledgement. -/
theorem setter_non_ok_leaves_config (s : LaserState) (resp : Option String)
    (call : SetterCall) (hv : setterValid call) (hc : s.connected = true)
    (hr : resp ≠ some "OK\r") :
    runSetter s resp call =
      (Except.error (PyError.laserCommandError (get_error_code_description resp)), s) := by
  cases call <;> simp_all [runSetter, setterValid]

/-- Witness for C5 at set_burst_count 5 answered with the error code ?1. -/
theorem setter_non_ok_leaves_config_witness :
    runSetter laserConnected (some "?1\r") (SetterCall.burstCount 5) =
      (Except.error (PyError.laserCommandError (get_error_code_description (some "?1\r"))),
        laserConnected) :=
  setter_non_ok_leaves_config laserConnected (some "?1\r") (SetterCall.burstCount 5)
    (by decide) rfl (by decide)

/-- Claim C6 (code bug): after a successful set_burst_count the stored burst
duration is stale, because neither set_burst_count nor set_rep_rate
recomputes it.  From the default configuration (burstCount 10, repRate 1,
burstDuration 10) an acknowledged set_burst_count 20 leaves burstDuration at
10 although the new burstCount over the new repRate is 20. -/
theorem set_burst_count_stale_duration :
    (runSetter laserConnected (some "OK\r") (SetterCall.burstCount 20)).1 = Except.ok true ∧
    (runSetter laserConnected (some "OK\r") (SetterCall.burstCount 20)).2.burstCount = 20 ∧
    (runSetter laserConnected (some "OK\r") (SetterCall.burstCount 20)).2.repRate = 1 ∧
    (runSetter laserConnected (some "OK\r") (SetterCall.burstCount 20)).2.burstDuration = 10 ∧
    ((20 : Rat) / (1 : Rat) ≠ 10) := by
  refine ⟨rfl, rfl, rfl, ?_, by norm_num⟩
  show ((10 : Int) : Rat) / ((1 : Int) : Rat) = 10
  norm_num

/-- Claim C9 (code bug): the very first connect call of a controller, with an
available port and valid parameters, never returns for any amount of fuel:
line 194 writes Thread(target=self._kicker()) whose call parentheses run the
infinite _kicker loop on the caller's own thread instead of handing the
function to a background thread. -/
theorem connect_first_call_diverges (fuel : Nat) :
    connect laserDefault true 115200 1 none fuel = none := by
  simp [connect, kicker_run_none, laserDefault, laserInit]

/-- Claim C10 (code bug): update_settings emits the seven commands in the
claimed fixed order, but the diode-trigger command built on line 525 carries
self.pulseMode rather than self.diodeTrigger: with pulseMode 1 and
diodeTrigger 0 the DT command carries the value 1. -/
theorem update_settings_DT_carries_pulse_mode :
    laserPulseModeOne.diodeTrigger = 0 ∧
    laserPulseModeOne.pulseMode = 1 ∧
    updateSettingsCmds laserPulseModeOne =
      [("RR", 1), ("BC", 10), ("DC", 1/10), ("EM", 0), ("PM", 1), ("DW", 10), ("DT", 1)] := by
  refine ⟨rfl, rfl, ?_⟩
  simp only [updateSettingsCmds, laserPulseModeOne, laserConnected, laserDefault, laserInit]
  norm_num
